import Mathlib

/-!
Verification of the resilience core of the `reptiles` scraper.

This file gives a shallow embedding, in Lean, of the health/ranking/rate
machinery of the repository and proves (or refutes) the frozen claims
about it.  Python floats are modelled as rationals (`ℚ`), wall-clock time
is an explicit `now : ℚ` parameter, and the mutation of an object is
modelled as a function from the old record to the new one.  List-valued
Python sorts (stable `list.sort` / `sorted`) are modelled by Mathlib's
`List.insertionSort`, which is stable for a total preorder and therefore
produces exactly the list CPython's stable sort produces for the same key.

Sources embedded here:
  * `tencent_video_scraper/proxy_manager.py`      — `ProxyStatus`, `ProxyInfo`,
    `_check_proxy`, `_check_all_proxies`, `get_active_proxy`,
    `mark_proxy_failed`, `mark_proxy_banned`, `reset_proxy`.
  * `tencent_video_scraper/rate_limiter.py`       — `RateLimiter.set_backoff`,
    `trigger_exponential_backoff`, `update_rate`.
  * `tencent_video_scraper/third_party_parser.py` — `ParserInterface`,
    `_record_success`, `_record_failure`, `get_sorted_parsers`,
    `validate_play_url`.
  * `tencent_video_scraper/http_client.py`        — `_should_retry`.
-/

/-! ## Proxy manager (`proxy_manager.py`) -/

/-- Embeds `ProxyStatus` (proxy_manager.py, lines 20-25). -/
inductive ProxyStatus
  | active
  | failed
  | banned
  | checking
deriving DecidableEq, Repr

/-- Embeds the dataclass `ProxyInfo` (proxy_manager.py, lines 28-42).
Floats are rationals; `last_check` and `response_time` are wall-clock values. -/
structure ProxyInfo where
  url : String
  status : ProxyStatus := ProxyStatus.active
  last_check : ℚ := 0
  failure_count : ℕ := 0
  success_count : ℕ := 0
  response_time : ℚ := 0
deriving DecidableEq, Repr

/-- Embeds the property `ProxyInfo.success_rate` (lines 38-42):
`success_count / total` when `total > 0`, else `0`. -/
def ProxyInfo.success_rate (p : ProxyInfo) : ℚ :=
  if p.success_count + p.failure_count > 0 then
    (p.success_count : ℚ) / ((p.success_count : ℚ) + (p.failure_count : ℚ))
  else 0

/-- A fresh `ProxyInfo(proxy)` as built in `ProxyManager.__init__` (line 57):
all dataclass defaults. -/
def ProxyInfo.init (url : String) : ProxyInfo := { url := url }

/-- The observable outcome of one probe request in `_check_proxy`:
`ok` is "HTTP 200 was received", `rt` the measured elapsed time. -/
structure ProbeOutcome where
  ok : Bool
  rt : ℚ

/-- Embeds `ProxyManager._check_proxy` (lines 109-140), as the net effect of
one probe on the proxy record.  The transient `CHECKING` status is overwritten
before the coroutine returns, so only the final state is kept: on HTTP 200 the
proxy becomes `ACTIVE` with `failure_count = 0` and `success_count + 1`;
otherwise `failure_count` is incremented and the status becomes `FAILED` when
the count reaches 3, else `ACTIVE`.  Note the source applies this to any
proxy, with no guard on the current status. -/
def check_proxy (out : ProbeOutcome) (now : ℚ) (p : ProxyInfo) : ProxyInfo :=
  if out.ok then
    { p with status := ProxyStatus.active, last_check := now,
             response_time := out.rt,
             success_count := p.success_count + 1, failure_count := 0 }
  else
    { p with status := if p.failure_count + 1 ≥ 3 then ProxyStatus.failed
                       else ProxyStatus.active,
             last_check := now, response_time := out.rt,
             failure_count := p.failure_count + 1 }

/-- Embeds `ProxyManager._check_all_proxies` (lines 99-107): every proxy whose
`last_check` is older than `check_interval` is probed by `_check_proxy`
(regardless of its status); `outcome` gives each probe's result. -/
def check_all_proxies (now check_interval : ℚ) (outcome : ProxyInfo → ProbeOutcome)
    (ps : List ProxyInfo) : List ProxyInfo :=
  ps.map (fun p => if now - p.last_check > check_interval
                   then check_proxy (outcome p) now p else p)

/-- Embeds `ProxyManager.mark_proxy_failed` (lines 175-183), restricted to the
looked-up record: `failure_count += 1`; status becomes `FAILED` once the count
reaches 3, otherwise it is left unchanged. -/
def mark_proxy_failed (p : ProxyInfo) : ProxyInfo :=
  let fc := p.failure_count + 1
  { p with failure_count := fc,
           status := if fc ≥ 3 then ProxyStatus.failed else p.status }

/-- Embeds `ProxyManager.mark_proxy_banned` (lines 165-169), restricted to the
looked-up record: status becomes `BANNED`. -/
def mark_proxy_banned (p : ProxyInfo) : ProxyInfo :=
  { p with status := ProxyStatus.banned }

/-- Embeds `ProxyManager.reset_proxy` (lines 207-214), restricted to the
looked-up record: status `ACTIVE`, `failure_count = 0`, `last_check = 0`. -/
def reset_proxy (p : ProxyInfo) : ProxyInfo :=
  { p with status := ProxyStatus.active, failure_count := 0, last_check := 0 }

/-- The sort key used by `get_active_proxy` (line 155):
Python sorts by `(success_rate, -response_time)` with `reverse=True`, i.e.
ascending in the lexicographic key `(-success_rate, response_time)`. -/
def ProxyInfo.sort_key (p : ProxyInfo) : ℚ ×ₗ ℚ :=
  toLex (-(p.success_rate), p.response_time)

/-- The total preorder realising `get_active_proxy`'s descending stable sort. -/
def proxyR (p q : ProxyInfo) : Prop := p.sort_key ≤ q.sort_key

instance : DecidableRel proxyR := fun p q =>
  inferInstanceAs (Decidable (p.sort_key ≤ q.sort_key))

instance : IsTotal ProxyInfo proxyR := ⟨fun a b => le_total a.sort_key b.sort_key⟩

instance : IsTrans ProxyInfo proxyR := ⟨fun _ _ _ h h' => le_trans h h'⟩

/-- The ranked list built inside `get_active_proxy` (lines 144-157): the
`ACTIVE` proxies, stably sorted by success rate descending then response time
ascending. -/
def get_active_proxy_ranked (ps : List ProxyInfo) : List ProxyInfo :=
  List.insertionSort proxyR (ps.filter (fun p => p.status == ProxyStatus.active))

/-- Embeds `ProxyManager.get_active_proxy` (lines 142-163) up to the final
`random.choice`: the returned list is the exact candidate set
`active_proxies[:max(1, len(active_proxies) // 2)]` from which the proxy is
drawn uniformly at random (`[]` models the `None` return). -/
def get_active_proxy_candidates (ps : List ProxyInfo) : List ProxyInfo :=
  if (ps.filter (fun p => p.status == ProxyStatus.active)).isEmpty then []
  else (get_active_proxy_ranked ps).take
    (max 1 ((ps.filter (fun p => p.status == ProxyStatus.active)).length / 2))

/-- Helper: with at least one ACTIVE proxy, the candidate set is the prefix of
the ranked list of length `max 1 (number of ACTIVE proxies // 2)`. -/
theorem get_active_proxy_candidates_eq (ps : List ProxyInfo)
    (h : ps.filter (fun p => p.status == ProxyStatus.active) ≠ []) :
    get_active_proxy_candidates ps = (get_active_proxy_ranked ps).take
      (max 1 ((ps.filter (fun p => p.status == ProxyStatus.active)).length / 2)) := by
  rw [get_active_proxy_candidates, if_neg (by simpa [List.isEmpty_iff] using h)]

/-- Helper: the size of the candidate set `get_active_proxy` draws from is
exactly `max 1 (number of ACTIVE proxies / 2)` (floor division). -/
theorem get_active_proxy_candidates_length (ps : List ProxyInfo)
    (h : ps.filter (fun p => p.status == ProxyStatus.active) ≠ []) :
    (get_active_proxy_candidates ps).length =
      max 1 ((ps.filter (fun p => p.status == ProxyStatus.active)).length / 2) := by
  have hlen : 0 < (ps.filter (fun p => p.status == ProxyStatus.active)).length :=
    List.length_pos.mpr h
  rw [get_active_proxy_candidates_eq ps h, List.length_take,
    get_active_proxy_ranked, List.length_insertionSort]
  omega

/-! ## Claims C1 and C2 -/

/-- A banned proxy whose last check is stale, as input for C1/C2 theorems. -/
def bannedProxy : ProxyInfo :=
  { url := "banned-proxy", status := ProxyStatus.banned }

/-- C1 counterexample: the claim says the periodic health-check probe never
changes a BANNED proxy's status.  In the code `_check_all_proxies` probes every
proxy whose `last_check` is stale with no status guard, and a successful probe
in `_check_proxy` unconditionally sets status `ACTIVE`: the probe sweep turns a
BANNED proxy back to ACTIVE without any call to `reset_proxy`. -/
theorem C1_counterexample :
    bannedProxy.status = ProxyStatus.banned ∧
    (check_all_proxies 1000 300 (fun _ => ⟨true, 1⟩) [bannedProxy]).map
      ProxyInfo.status = [ProxyStatus.active] := by
  constructor
  · rfl
  · have hstale : (1000 : ℚ) - bannedProxy.last_check > 300 := by
      norm_num [bannedProxy]
    simp [check_all_proxies, hstale, check_proxy]

/-- C1 (amended): among the ledger operations, `mark_proxy_failed` and
`mark_proxy_banned` never return a BANNED proxy to ACTIVE and `reset_proxy`
does set it ACTIVE — but the health-check probe is a second recovery path:
a BANNED proxy with a stale `last_check` is probed by `_check_all_proxies`
like any other, and a successful probe sets its status to ACTIVE. -/
theorem C1_banned_recovery_paths (p : ProxyInfo)
    (h : p.status = ProxyStatus.banned) :
    (mark_proxy_failed p).status ≠ ProxyStatus.active ∧
    (mark_proxy_banned p).status = ProxyStatus.banned ∧
    (reset_proxy p).status = ProxyStatus.active ∧
    (∀ now rt, (check_proxy ⟨true, rt⟩ now p).status = ProxyStatus.active) ∧
    (∀ now interval outcome, now - p.last_check > interval →
      check_all_proxies now interval outcome [p] =
        [check_proxy (outcome p) now p]) := by
  refine ⟨?_, ?_, ?_, ?_, ?_⟩
  · unfold mark_proxy_failed
    dsimp only
    split
    · simp
    · simp [h]
  · rfl
  · rfl
  · intro now rt
    rfl
  · intro now interval outcome hstale
    simp [check_all_proxies, hstale]

/-- Witness for `C1_banned_recovery_paths` at a concrete banned proxy. -/
theorem C1_banned_recovery_paths_witness :
    (mark_proxy_failed bannedProxy).status ≠ ProxyStatus.active ∧
    (reset_proxy bannedProxy).status = ProxyStatus.active ∧
    (check_proxy ⟨true, 1⟩ 1000 bannedProxy).status = ProxyStatus.active := by
  have h := C1_banned_recovery_paths bannedProxy (by rfl)
  exact ⟨h.1, h.2.2.1, h.2.2.2.1 1000 1⟩

/-- A pool with three ACTIVE proxies of pairwise distinct success rates
(1, 1/2, 0), as input for the C2 counterexample. -/
def threeProxyPool : List ProxyInfo :=
  [ { url := "a", success_count := 1 },
    { url := "b", success_count := 1, failure_count := 1 },
    { url := "c", failure_count := 1 } ]

/-- C2 counterexample: the claim says the selection pool keeps the top half of
the ranked list rounded UP (so 2 candidates out of 3 selectable proxies); the
code keeps `active_proxies[:max(1, len(active_proxies) // 2)]`, a floor, so
with 3 selectable proxies the uniform pick is drawn from the top 1 only. -/
theorem C2_counterexample :
    (threeProxyPool.filter (fun p => p.status == ProxyStatus.active)).length = 3 ∧
    (get_active_proxy_candidates threeProxyPool).length ≠ (3 + 1) / 2 := by
  constructor
  · rfl
  · have hf : (threeProxyPool.filter (fun p => p.status == ProxyStatus.active)).length = 3 :=
      rfl
    have hne : threeProxyPool.filter (fun p => p.status == ProxyStatus.active) ≠ [] := by
      intro hcontra
      rw [hcontra] at hf
      exact absurd hf (by norm_num)
    rw [get_active_proxy_candidates_length threeProxyPool hne, hf]
    decide

/-- C2 (amended): with a non-empty set of ACTIVE proxies, `get_active_proxy`
draws its uniform pick from `active_proxies[:max(1, n // 2)]` — the top half of
the ranked list rounded DOWN, with a minimum of one candidate (so with 3
selectable proxies the pick is drawn from the top 1, not the top 2).  Every
candidate is ACTIVE and ranks at least as high as every non-candidate in the
ranked list. -/
theorem C2_selection_pool (ps : List ProxyInfo)
    (h : ps.filter (fun p => p.status == ProxyStatus.active) ≠ []) :
    (get_active_proxy_candidates ps).length =
      max 1 ((ps.filter (fun p => p.status == ProxyStatus.active)).length / 2) ∧
    (∀ p ∈ get_active_proxy_candidates ps, p.status = ProxyStatus.active) ∧
    (∀ p ∈ get_active_proxy_candidates ps,
      ∀ q ∈ (get_active_proxy_ranked ps).drop
        (max 1 ((ps.filter (fun p => p.status == ProxyStatus.active)).length / 2)),
      proxyR p q) := by
  refine ⟨get_active_proxy_candidates_length ps h, ?_, ?_⟩
  · intro p hp
    rw [get_active_proxy_candidates_eq ps h] at hp
    have hmem : p ∈ get_active_proxy_ranked ps := List.take_subset _ _ hp
    rw [get_active_proxy_ranked, List.mem_insertionSort] at hmem
    exact beq_iff_eq.mp (List.mem_filter.mp hmem).2
  · intro p hp q hq
    rw [get_active_proxy_candidates_eq ps h] at hp
    have hs : List.Sorted proxyR (get_active_proxy_ranked ps) :=
      List.sorted_insertionSort proxyR _
    have hsplit : List.Pairwise proxyR
        ((get_active_proxy_ranked ps).take
            (max 1 ((ps.filter (fun p => p.status == ProxyStatus.active)).length / 2)) ++
          (get_active_proxy_ranked ps).drop
            (max 1 ((ps.filter (fun p => p.status == ProxyStatus.active)).length / 2))) := by
      rw [List.take_append_drop]
      exact hs
    exact (List.pairwise_append.mp hsplit).2.2 p hp q hq

/-- Witness for `C2_selection_pool` at the concrete 3-proxy pool. -/
theorem C2_selection_pool_witness :
    (get_active_proxy_candidates threeProxyPool).length =
      max 1 ((threeProxyPool.filter (fun p => p.status == ProxyStatus.active)).length / 2) ∧
    ∀ p ∈ get_active_proxy_candidates threeProxyPool, p.status = ProxyStatus.active := by
  have hf : (threeProxyPool.filter (fun p => p.status == ProxyStatus.active)).length = 3 :=
    rfl
  have h := C2_selection_pool threeProxyPool (by
    intro hcontra
    rw [hcontra] at hf
    exact absurd hf (by norm_num))
  exact ⟨h.1, h.2.1⟩

/-! ## Rate limiter (`rate_limiter.py`) -/

/-- Embeds the fields of `RateLimiter` (rate_limiter.py, lines 26-37) touched
by `set_backoff` and `update_rate`; `backoff_events` is the stats counter
`stats['backoff_events']`. -/
structure RateLimiter where
  rate : ℚ
  tokens : ℚ
  last_update : ℚ := 0
  backoff_factor : ℚ := 1
  max_backoff : ℚ := 60
  backoff_events : ℕ := 0
deriving DecidableEq, Repr

/-- Embeds `RateLimiter.set_backoff` (lines 74-86):
`backoff_factor = min(max_backoff, backoff_factor * factor)`, counting a
backoff event when the factor strictly grew. -/
def RateLimiter.set_backoff (rl : RateLimiter) (factor : ℚ) : RateLimiter :=
  let nf := min rl.max_backoff (rl.backoff_factor * factor)
  { rl with backoff_factor := nf,
            backoff_events := if rl.backoff_factor < nf then rl.backoff_events + 1
                              else rl.backoff_events }

/-- Embeds `RateLimiter.trigger_exponential_backoff` (lines 88-90):
`set_backoff(2.0)`. -/
def RateLimiter.trigger_exponential_backoff (rl : RateLimiter) : RateLimiter :=
  rl.set_backoff 2

/-- Embeds `RateLimiter.update_rate` (lines 98-116): sets `rate = new_rate`;
when the rate increases the tokens are rescaled by `new_rate / old_rate` and
clamped to `new_rate`; otherwise the tokens are merely clamped to `new_rate`. -/
def RateLimiter.update_rate (rl : RateLimiter) (new_rate : ℚ) : RateLimiter :=
  { rl with rate := new_rate,
            tokens := if new_rate > rl.rate
                      then min new_rate (rl.tokens * (new_rate / rl.rate))
                      else min new_rate rl.tokens }

/-! ## Claims C3 and C8 -/

/-- A concrete limiter state for C3/C8: rate 4, tokens 2. -/
def rl0 : RateLimiter := { rate := 4, tokens := 2 }

/-- C3 counterexample: the claim says `update_rate` rescales tokens
proportionally for rate decreases as well as increases.  At rate 4 with 2
tokens, `update_rate(2)` would then leave `2 * (2/4) = 1` token; the code
takes the `else` branch `tokens = min(new_rate, tokens)` and leaves 2. -/
theorem C3_counterexample :
    (rl0.update_rate 2).tokens = 2 ∧
    (rl0.update_rate 2).tokens ≠ min 2 (rl0.tokens * ((2 : ℚ) / rl0.rate)) := by
  have h : (rl0.update_rate 2).tokens = 2 := by
    rw [RateLimiter.update_rate]
    norm_num [rl0]
  refine ⟨h, ?_⟩
  rw [h]
  norm_num [rl0]

/-- C3 (amended): `update_rate(new_rate)` sets `rate` to `new_rate`; for a
rate INCREASE it sets tokens to the proportional rescaling
`tokens * (new_rate / old_rate)` clamped to the new capacity, but for a rate
decrease (or unchanged rate) it merely clamps the existing token count to the
new capacity without rescaling.  Either way `0 ≤ tokens ≤ rate` is
preserved. -/
theorem C3_update_rate (rl : RateLimiter) (new_rate : ℚ)
    (hr : 0 < rl.rate) (hn : 0 < new_rate)
    (ht0 : 0 ≤ rl.tokens) (htr : rl.tokens ≤ rl.rate) :
    (rl.update_rate new_rate).rate = new_rate ∧
    (rl.rate < new_rate →
      (rl.update_rate new_rate).tokens =
        min new_rate (rl.tokens * (new_rate / rl.rate))) ∧
    (new_rate ≤ rl.rate →
      (rl.update_rate new_rate).tokens = min new_rate rl.tokens) ∧
    0 ≤ (rl.update_rate new_rate).tokens ∧
    (rl.update_rate new_rate).tokens ≤ new_rate := by
  refine ⟨rfl, ?_, ?_, ?_, ?_⟩
  · intro hlt
    rw [RateLimiter.update_rate]
    simp only [gt_iff_lt, if_pos hlt]
  · intro hle
    rw [RateLimiter.update_rate]
    simp only [gt_iff_lt, if_neg (not_lt.mpr hle)]
  · rw [RateLimiter.update_rate]
    dsimp only
    split
    · exact le_min hn.le (mul_nonneg ht0 (div_nonneg hn.le hr.le))
    · exact le_min hn.le ht0
  · rw [RateLimiter.update_rate]
    dsimp only
    split
    · exact min_le_left _ _
    · exact min_le_left _ _

/-- Witness for `C3_update_rate` at rate 4, tokens 2, new rate 8. -/
theorem C3_update_rate_witness :
    (rl0.update_rate 8).rate = 8 ∧
    (rl0.rate < 8 →
      (rl0.update_rate 8).tokens = min 8 (rl0.tokens * ((8 : ℚ) / rl0.rate))) := by
  have h := C3_update_rate rl0 8 (by norm_num [rl0]) (by norm_num)
    (by norm_num [rl0]) (by norm_num [rl0])
  exact ⟨h.1, h.2.1⟩

/-- C8: while `backoff_factor < max_backoff` (and positive, as it always is in
reachable states, starting at 1.0), `trigger_exponential_backoff()` strictly
increases `backoff_factor`, doubling it clamped at `max_backoff`; once
`backoff_factor = max_backoff` (positive) every further call leaves it
unchanged. -/
theorem C8_exponential_backoff (rl : RateLimiter) (hpos : 0 < rl.backoff_factor) :
    (rl.backoff_factor < rl.max_backoff →
      rl.trigger_exponential_backoff.backoff_factor =
        min rl.max_backoff (rl.backoff_factor * 2) ∧
      rl.backoff_factor < rl.trigger_exponential_backoff.backoff_factor) ∧
    (rl.backoff_factor = rl.max_backoff →
      rl.trigger_exponential_backoff.backoff_factor = rl.backoff_factor) := by
  constructor
  · intro hlt
    refine ⟨rfl, ?_⟩
    show rl.backoff_factor < min rl.max_backoff (rl.backoff_factor * 2)
    refine lt_min hlt ?_
    nlinarith
  · intro heq
    show min rl.max_backoff (rl.backoff_factor * 2) = rl.backoff_factor
    rw [← heq]
    exact min_eq_left (by nlinarith)

/-- Witness for `C8_exponential_backoff` at the initial state
(`backoff_factor = 1`, `max_backoff = 60`). -/
theorem C8_exponential_backoff_witness :
    rl0.trigger_exponential_backoff.backoff_factor =
      min rl0.max_backoff (rl0.backoff_factor * 2) ∧
    rl0.backoff_factor < rl0.trigger_exponential_backoff.backoff_factor :=
  (C8_exponential_backoff rl0 (by norm_num [rl0])).1 (by norm_num [rl0])

/-! ## Third-party relay pool (`third_party_parser.py`) -/

/-- Embeds the dataclass `ParserInterface` (third_party_parser.py,
lines 25-38). -/
structure ParserInterface where
  name : String
  url_template : String
  response_type : String
  enabled : Bool := true
  success_count : ℕ := 0
  failure_count : ℕ := 0
  total_response_time : ℚ := 0
  last_success_time : Option ℚ := none
  last_failure_time : Option ℚ := none
  cooldown_until : Option ℚ := none
  consecutive_failures : ℕ := 0
deriving DecidableEq, Repr

/-- Embeds `ParserInterface.get_success_rate` (lines 40-43):
`success_count / total` when `total > 0`, else the default `0.5`. -/
def ParserInterface.get_success_rate (p : ParserInterface) : ℚ :=
  if p.success_count + p.failure_count > 0 then
    (p.success_count : ℚ) / ((p.success_count : ℚ) + (p.failure_count : ℚ))
  else 1 / 2

/-- Embeds `ParserInterface.get_average_response_time` (lines 45-49):
`total_response_time / success_count` when `success_count > 0`, else
`float('inf')`, modelled as `⊤` in `WithTop ℚ`. -/
def ParserInterface.get_average_response_time (p : ParserInterface) : WithTop ℚ :=
  if p.success_count > 0 then
    ((p.total_response_time / (p.success_count : ℚ) : ℚ) : WithTop ℚ)
  else ⊤

/-- Embeds `ParserInterface.is_in_cooldown` (lines 51-55): false when
`cooldown_until` is `None`, else `time.time() < cooldown_until` with the
current time passed explicitly. -/
def ParserInterface.is_in_cooldown (p : ParserInterface) (now : ℚ) : Bool :=
  match p.cooldown_until with
  | none => false
  | some t => decide (now < t)

/-- `ThirdPartyParserManager.COOLDOWN_BASE` (line 107). -/
def COOLDOWN_BASE : ℕ := 60

/-- `ThirdPartyParserManager.COOLDOWN_MAX` (line 108). -/
def COOLDOWN_MAX : ℕ := 3600

/-- `ThirdPartyParserManager.MAX_CONSECUTIVE_FAILURES` (line 109). -/
def MAX_CONSECUTIVE_FAILURES : ℕ := 5

/-- Embeds `ThirdPartyParserManager._record_success` (lines 338-344). -/
def ParserInterface.record_success (p : ParserInterface) (now rt : ℚ) :
    ParserInterface :=
  { p with success_count := p.success_count + 1,
           total_response_time := p.total_response_time + rt,
           last_success_time := some now,
           consecutive_failures := 0,
           cooldown_until := none }

/-- The cooldown duration computed in `_record_failure` (lines 353-357):
`min(COOLDOWN_BASE * 2 ** (cf - MAX_CONSECUTIVE_FAILURES), COOLDOWN_MAX)`. -/
def cooldown_time (cf : ℕ) : ℕ :=
  min (COOLDOWN_BASE * 2 ^ (cf - MAX_CONSECUTIVE_FAILURES)) COOLDOWN_MAX

/-- Embeds `ThirdPartyParserManager._record_failure` (lines 346-359). -/
def ParserInterface.record_failure (p : ParserInterface) (now : ℚ) :
    ParserInterface :=
  let cf := p.consecutive_failures + 1
  { p with failure_count := p.failure_count + 1,
           last_failure_time := some now,
           consecutive_failures := cf,
           cooldown_until := if cf ≥ MAX_CONSECUTIVE_FAILURES
                             then some (now + (cooldown_time cf : ℚ))
                             else p.cooldown_until }

/-- The sort key used by `get_sorted_parsers` (line 259): Python sorts
ascending by the tuple `(-success_rate, average_response_time)`. -/
def ParserInterface.sort_key (p : ParserInterface) : ℚ ×ₗ WithTop ℚ :=
  toLex (-(p.get_success_rate), p.get_average_response_time)

/-- The total preorder realising `get_sorted_parsers`' stable sort. -/
def parserR (p q : ParserInterface) : Prop := p.sort_key ≤ q.sort_key

instance : DecidableRel parserR := fun p q =>
  inferInstanceAs (Decidable (p.sort_key ≤ q.sort_key))

instance : IsTotal ParserInterface parserR :=
  ⟨fun a b => le_total a.sort_key b.sort_key⟩

instance : IsTrans ParserInterface parserR := ⟨fun _ _ _ h h' => le_trans h h'⟩

/-- Embeds `ThirdPartyParserManager.get_sorted_parsers` (lines 243-260):
keep the enabled, non-cooled-down interfaces and stably sort them by success
rate descending, then average response time ascending. -/
def get_sorted_parsers (parsers : List ParserInterface) (now : ℚ) :
    List ParserInterface :=
  List.insertionSort parserR
    (parsers.filter (fun p => p.enabled && !(p.is_in_cooldown now)))

/-- Helper: the sort preorder spelled out — higher success rate first, average
response time as tie-break. -/
theorem parserR_iff (p q : ParserInterface) :
    parserR p q ↔
      q.get_success_rate < p.get_success_rate ∨
        (p.get_success_rate = q.get_success_rate ∧
          p.get_average_response_time ≤ q.get_average_response_time) := by
  rw [parserR, ParserInterface.sort_key, ParserInterface.sort_key, Prod.Lex.le_iff]
  constructor
  · rintro (h | ⟨h1, h2⟩)
    · exact Or.inl (by simpa using h)
    · exact Or.inr ⟨by simpa using neg_injective h1, h2⟩
  · rintro (h | ⟨h1, h2⟩)
    · exact Or.inl (by simpa using h)
    · exact Or.inr ⟨by simpa using congrArg Neg.neg h1, h2⟩

/-- Helper: `consecutive_failures` after `k` iterated `record_failure` calls. -/
theorem record_failure_iterate_cf (now : ℚ) (k : ℕ) (p : ParserInterface) :
    ((fun q => ParserInterface.record_failure q now)^[k] p).consecutive_failures =
      p.consecutive_failures + k := by
  induction k with
  | zero => rfl
  | succ n ih =>
    rw [Function.iterate_succ_apply']
    show ((fun q => ParserInterface.record_failure q now)^[n] p).consecutive_failures
        + 1 = p.consecutive_failures + (n + 1)
    omega

/-! ## Claims C4, C5 and C7 -/

/-- C4: `record_failure` increments `failure_count` and
`consecutive_failures`; once `consecutive_failures` reaches
`MAX_CONSECUTIVE_FAILURES` it sets `cooldown_until = now +
min(COOLDOWN_BASE * 2^(cf - MAX_CONSECUTIVE_FAILURES), COOLDOWN_MAX)`; after
exactly `MAX_CONSECUTIVE_FAILURES` consecutive failures `is_in_cooldown` is
immediately true; the cooldown duration is monotone in the consecutive-failure
count and never exceeds `COOLDOWN_MAX`. -/
theorem C4_record_failure_cooldown (p : ParserInterface) (now : ℚ) :
    (p.record_failure now).failure_count = p.failure_count + 1 ∧
    (p.record_failure now).consecutive_failures = p.consecutive_failures + 1 ∧
    (p.consecutive_failures + 1 ≥ MAX_CONSECUTIVE_FAILURES →
      (p.record_failure now).cooldown_until =
        some (now + (cooldown_time (p.consecutive_failures + 1) : ℚ))) ∧
    (p.consecutive_failures = 0 →
      ((fun q => ParserInterface.record_failure q now)^[MAX_CONSECUTIVE_FAILURES]
          p).is_in_cooldown now = true) ∧
    (∀ m n, m ≤ n → cooldown_time m ≤ cooldown_time n) ∧
    (∀ n, cooldown_time n ≤ COOLDOWN_MAX) := by
  refine ⟨rfl, rfl, ?_, ?_, ?_, ?_⟩
  · intro h
    rw [ParserInterface.record_failure]
    simp only [if_pos h]
  · intro h0
    show ((fun q => ParserInterface.record_failure q now)^[4 + 1] p).is_in_cooldown
        now = true
    rw [Function.iterate_succ_apply']
    have h4 : ((fun q => ParserInterface.record_failure q now)^[4]
        p).consecutive_failures = 4 := by
      rw [record_failure_iterate_cf, h0]
    rw [ParserInterface.record_failure, ParserInterface.is_in_cooldown]
    simp only [h4]
    norm_num [MAX_CONSECUTIVE_FAILURES, cooldown_time, COOLDOWN_BASE, COOLDOWN_MAX]
  · intro m n hmn
    unfold cooldown_time
    exact min_le_min
      (Nat.mul_le_mul_left _ (Nat.pow_le_pow_right (by norm_num)
        (Nat.sub_le_sub_right hmn _))) le_rfl
  · intro n
    exact min_le_right _ _

/-- A fresh relay interface (all counters at their dataclass defaults). -/
def parserA : ParserInterface :=
  { name := "relay-a", url_template := "https://a/?u={url}", response_type := "html" }

/-- Witness for `C4_record_failure_cooldown`: a fresh interface is in cooldown
immediately after exactly 5 consecutive failures, and the duration is monotone
between 3 and 10 consecutive failures. -/
theorem C4_record_failure_cooldown_witness :
    ((fun q => ParserInterface.record_failure q 100)^[MAX_CONSECUTIVE_FAILURES]
        parserA).is_in_cooldown 100 = true ∧
    cooldown_time 3 ≤ cooldown_time 10 := by
  have h := C4_record_failure_cooldown parserA 100
  exact ⟨h.2.2.2.1 rfl, h.2.2.2.2.1 3 10 (by norm_num)⟩

/-- C5: for a fixed health state (`get_sorted_parsers` is a pure function of
the pool and the clock, hence deterministic), the ranked list contains exactly
the enabled, non-cooled-down interfaces; success rates are non-increasing
along it with average response time non-decreasing among equal rates; and a
full tie (equal success rate and equal average response time) preserves the
pool's insertion order. -/
theorem C5_rank_sorted (parsers : List ParserInterface) (now : ℚ) :
    (∀ p, p ∈ get_sorted_parsers parsers now ↔
      p ∈ parsers ∧ p.enabled = true ∧ p.is_in_cooldown now = false) ∧
    List.Pairwise (fun p q =>
      q.get_success_rate ≤ p.get_success_rate ∧
      (p.get_success_rate = q.get_success_rate →
        p.get_average_response_time ≤ q.get_average_response_time))
      (get_sorted_parsers parsers now) ∧
    (∀ a b,
      List.Sublist [a, b] (parsers.filter (fun p => p.enabled && !(p.is_in_cooldown now))) →
      a.get_success_rate = b.get_success_rate →
      a.get_average_response_time = b.get_average_response_time →
      List.Sublist [a, b] (get_sorted_parsers parsers now)) := by
  refine ⟨?_, ?_, ?_⟩
  · intro p
    rw [get_sorted_parsers, List.mem_insertionSort, List.mem_filter,
      Bool.and_eq_true, Bool.not_eq_true']
  · have hs : List.Sorted parserR (get_sorted_parsers parsers now) :=
      List.sorted_insertionSort parserR _
    refine hs.imp ?_
    intro p q hpq
    rcases (parserR_iff p q).mp hpq with h | ⟨h1, h2⟩
    · exact ⟨h.le, fun heq => absurd (heq ▸ h) (lt_irrefl _)⟩
    · exact ⟨h1.ge, fun _ => h2⟩
  · intro a b hsub hsr havg
    exact List.pair_sublist_insertionSort
      ((parserR_iff a b).mpr (Or.inr ⟨hsr, le_of_eq havg⟩)) hsub

/-- A second fresh relay interface, fully tied with `parserA` in the ranking
key (both have zero observations: success rate 1/2, average latency +∞). -/
def parserB : ParserInterface :=
  { name := "relay-b", url_template := "https://b/?u={url}", response_type := "json" }

/-- Witness for `C5_rank_sorted`: two fully tied fresh interfaces keep their
insertion order in the ranked list. -/
theorem C5_rank_sorted_witness :
    List.Sublist [parserA, parserB] (get_sorted_parsers [parserA, parserB] 0) := by
  have h := C5_rank_sorted [parserA, parserB] 0
  refine h.2.2 parserA parserB ?_ rfl rfl
  have hf : List.filter (fun p => p.enabled && !(p.is_in_cooldown 0))
      [parserA, parserB] = [parserA, parserB] := rfl
  rw [hf]

/-- C7: `record_success` increments `success_count`, adds the latency to
`total_response_time`, resets `consecutive_failures` to 0, and clears
`cooldown_until`, so the interface is not in cooldown at any time right after
a success. -/
theorem C7_record_success (p : ParserInterface) (now rt t : ℚ) :
    (p.record_success now rt).success_count = p.success_count + 1 ∧
    (p.record_success now rt).total_response_time = p.total_response_time + rt ∧
    (p.record_success now rt).consecutive_failures = 0 ∧
    (p.record_success now rt).cooldown_until = none ∧
    (p.record_success now rt).is_in_cooldown t = false :=
  ⟨rfl, rfl, rfl, rfl, rfl⟩

/-! ## URL validation (`third_party_parser.py`, lines 519-558) -/

/-- The media-format extensions checked by `validate_play_url` (line 538). -/
def valid_extensions : List (List Char) :=
  [".m3u8".data, ".mp4".data, ".flv".data, ".ts".data]

/-- The media path segments checked by `validate_play_url` (line 539). -/
def valid_protocols : List (List Char) :=
  ["/m3u8/".data, "/mp4/".data, "/flv/".data, "/hls/".data, "/dash/".data]

/-- The characters rejected by `validate_play_url` (line 554): angle brackets,
double and single quote (`Char.ofNat 39`), newline, carriage return, tab. -/
def invalid_chars : List Char :=
  ['<', '>', '"', Char.ofNat 39, '\n', '\r', '\t']

/-- Python's substring containment `needle in hay` on character lists. -/
def sub_in : List Char → List Char → Bool
  | needle, [] => needle.isEmpty
  | needle, c :: rest => List.isPrefixOf needle (c :: rest) || sub_in needle rest

/-- The scheme check `url.startswith(('http://', 'https://'))` (line 533). -/
def starts_with_http (url : List Char) : Bool :=
  List.isPrefixOf "http://".data url || List.isPrefixOf "https://".data url

/-- The media-indicator check of `validate_play_url` (lines 536-544): some
valid extension or path segment occurs in the lower-cased URL. -/
def has_valid_format (url : List Char) : Bool :=
  valid_extensions.any (fun e => sub_in e (url.map Char.toLower)) ||
  valid_protocols.any (fun pr => sub_in pr (url.map Char.toLower))

/-- Embeds `ThirdPartyParserManager.validate_play_url` (lines 519-558) on the
URL's character list, with the checks in source order: non-empty; `http(s)`
scheme; media-format indicator; length within [20, 2000]; no invalid
character. -/
def validate_play_url (url : List Char) : Bool :=
  if url.isEmpty then false
  else if !(starts_with_http url) then false
  else if !(has_valid_format url) then false
  else if url.length < 20 ∨ url.length > 2000 then false
  else if invalid_chars.any (fun c => url.contains c) then false
  else true

/-- A well-formed 40-character https URL ending in `/video.m3u8`. -/
def url40 : List Char := "https://cdn.example.com/hls/x/video.m3u8".data

/-! ## Claims C6 and C9 -/

/-- C6: `validate_play_url` accepts exactly the non-empty http(s) URLs of
length 20 to 2000 that avoid every invalid character and contain a recognized
media indicator; in particular it rejects `""`, `"not-a-url"`,
`"ftp://x.mp4"`, every 12-character URL and every URL containing `<`, and
accepts a well-formed 40-character https URL ending in `/video.m3u8`. -/
theorem C6_validate_play_url :
    (∀ url : List Char, validate_play_url url = true ↔
      (url ≠ [] ∧ starts_with_http url = true ∧
        20 ≤ url.length ∧ url.length ≤ 2000 ∧
        (∀ c ∈ invalid_chars, url.contains c = false) ∧
        has_valid_format url = true)) ∧
    validate_play_url [] = false ∧
    validate_play_url "not-a-url".data = false ∧
    validate_play_url "ftp://x.mp4".data = false ∧
    (∀ url : List Char, url.length = 12 → validate_play_url url = false) ∧
    (∀ url : List Char, '<' ∈ url → validate_play_url url = false) ∧
    (url40.length = 40 ∧ validate_play_url url40 = true) := by
  have hiff : ∀ url : List Char, validate_play_url url = true ↔
      (url ≠ [] ∧ starts_with_http url = true ∧
        20 ≤ url.length ∧ url.length ≤ 2000 ∧
        (∀ c ∈ invalid_chars, url.contains c = false) ∧
        has_valid_format url = true) := by
    intro url
    unfold validate_play_url
    split_ifs with h1 h2 h3 h4 h5
    · simp only [Bool.false_eq_true, false_iff]
      rintro ⟨hne, -, -, -, -, -⟩
      exact hne (List.isEmpty_iff.mp h1)
    · simp only [Bool.false_eq_true, false_iff]
      rintro ⟨-, hs, -, -, -, -⟩
      rw [Bool.not_eq_true'] at h2
      rw [h2] at hs
      exact Bool.false_ne_true hs
    · simp only [Bool.false_eq_true, false_iff]
      rintro ⟨-, -, -, -, -, hfmt⟩
      rw [Bool.not_eq_true'] at h3
      rw [h3] at hfmt
      exact Bool.false_ne_true hfmt
    · simp only [Bool.false_eq_true, false_iff]
      rintro ⟨-, -, h20, h2000, -, -⟩
      omega
    · simp only [Bool.false_eq_true, false_iff]
      rintro ⟨-, -, -, -, hchars, -⟩
      obtain ⟨c, hc, hcont⟩ := List.any_eq_true.mp h5
      rw [hchars c hc] at hcont
      exact Bool.false_ne_true hcont
    · simp only [true_iff]
      refine ⟨?_, ?_, ?_, ?_, ?_, ?_⟩
      · intro he
        exact h1 (by rw [he]; rfl)
      · rw [Bool.not_eq_true'] at h2
        exact Bool.not_eq_false _ |>.mp h2
      · omega
      · omega
      · intro c hc
        by_contra hcc
        exact h5 (List.any_eq_true.mpr ⟨c, hc, Bool.not_eq_false _ |>.mp hcc⟩)
      · rw [Bool.not_eq_true'] at h3
        exact Bool.not_eq_false _ |>.mp h3
  refine ⟨hiff, rfl, ?_, ?_, ?_, ?_, ?_, ?_⟩
  · decide
  · decide
  · intro url hlen
    rw [validate_play_url]
    split_ifs with h1 h2 h3 h4
    · rfl
    · rfl
    · rfl
    · rfl
    · rfl
    · omega
  · intro url hmem
    by_contra hval
    have hv : validate_play_url url = true :=
      Bool.not_eq_false _ |>.mp hval
    obtain ⟨-, -, -, -, hchars, -⟩ := (hiff url).mp hv
    have h1 : url.contains '<' = false := hchars '<' (by decide)
    have h2 : url.contains '<' = true := by
      rw [List.contains_eq_any_beq]
      exact List.any_eq_true.mpr ⟨'<', hmem, by simp⟩
    rw [h1] at h2
    exact Bool.false_ne_true h2
  · exact rfl
  · decide

/-- Witness for `C6_validate_play_url`: a concrete 12-character URL and a
concrete URL containing `<` are both rejected. -/
theorem C6_validate_play_url_witness :
    validate_play_url "http://x.mp4".data = false ∧
    validate_play_url "https://e.com/v<ideo.m3u8aaaaaaa".data = false := by
  have h := C6_validate_play_url
  exact ⟨h.2.2.2.2.1 "http://x.mp4".data (by decide),
    h.2.2.2.2.2.1 "https://e.com/v<ideo.m3u8aaaaaaa".data (by decide)⟩

/-! ## HTTP retry policy (`http_client.py`) -/

/-- Embeds `HTTPClient._should_retry` (http_client.py, lines 123-140):
no retry once `attempt >= max_retries`; retry on 5xx, 429 and 408; no retry
otherwise. -/
def should_retry (max_retries status_code attempt : ℕ) : Bool :=
  if attempt ≥ max_retries then false
  else if 500 ≤ status_code ∧ status_code < 600 then true
  else if status_code = 429 then true
  else if status_code = 408 then true
  else false

/-- C9: the retry predicate holds iff the attempt count is below
`max_retries` and the status code is 408, 429 or in 500-599; every other
status code is never retried. -/
theorem C9_should_retry (max_retries status_code attempt : ℕ) :
    should_retry max_retries status_code attempt = true ↔
      attempt < max_retries ∧
        (status_code = 408 ∨ status_code = 429 ∨
          (500 ≤ status_code ∧ status_code ≤ 599)) := by
  unfold should_retry
  split_ifs with h1 h2 h3 h4 <;> simp <;> omega

/-! ## Claim C10: `failure_count` counts consecutive failures -/

/-- The per-proxy recording operations named by claim C10: a successful
health-check probe, a failed probe, and `mark_proxy_failed`. -/
inductive ProxyEvent
  | probe_success (now rt : ℚ)
  | probe_failure (now rt : ℚ)
  | mark_failed
deriving Repr

/-- Whether the event is a successful probe. -/
def ProxyEvent.isSuccess : ProxyEvent → Bool
  | .probe_success _ _ => true
  | _ => false

/-- Apply one recording operation to a proxy record, per the source. -/
def apply_proxy_event (p : ProxyInfo) : ProxyEvent → ProxyInfo
  | .probe_success now rt => check_proxy ⟨true, rt⟩ now p
  | .probe_failure now rt => check_proxy ⟨false, rt⟩ now p
  | .mark_failed => mark_proxy_failed p

/-- Run a sequence of recording operations left to right. -/
def run_proxy_events (p : ProxyInfo) (es : List ProxyEvent) : ProxyInfo :=
  es.foldl apply_proxy_event p

/-- The number of trailing non-success events: each failed probe and each
`mark_proxy_failed` records exactly one failure, so this is the number of
failures recorded since the last successful probe. -/
def failures_since_last_success (es : List ProxyEvent) : ℕ :=
  (es.reverse.takeWhile (fun e => !e.isSuccess)).length

/-- Helper: starting from a record with `failure_count = 0`, after any event
sequence `failure_count` equals the number of failures recorded since the
last successful probe. -/
theorem run_proxy_events_failure_count (p : ProxyInfo) (h0 : p.failure_count = 0)
    (es : List ProxyEvent) :
    (run_proxy_events p es).failure_count = failures_since_last_success es := by
  induction es using List.reverseRecOn with
  | nil => simpa [run_proxy_events, failures_since_last_success] using h0
  | append_singleton es e ih =>
    rw [run_proxy_events, List.foldl_append]
    rw [run_proxy_events] at ih
    cases e with
    | probe_success now rt =>
      simp [failures_since_last_success, apply_proxy_event,
        check_proxy, ProxyEvent.isSuccess]
    | probe_failure now rt =>
      have hL : (List.foldl apply_proxy_event (List.foldl apply_proxy_event p es)
          [ProxyEvent.probe_failure now rt]).failure_count =
            (List.foldl apply_proxy_event p es).failure_count + 1 := by
        simp [apply_proxy_event, check_proxy]
      rw [hL, ih]
      simp [failures_since_last_success, ProxyEvent.isSuccess,
        List.takeWhile_cons]
    | mark_failed =>
      have hL : (List.foldl apply_proxy_event (List.foldl apply_proxy_event p es)
          [ProxyEvent.mark_failed]).failure_count =
            (List.foldl apply_proxy_event p es).failure_count + 1 := rfl
      rw [hL, ih]
      simp [failures_since_last_success, ProxyEvent.isSuccess,
        List.takeWhile_cons]

/-- C10: a successful probe resets `failure_count` to 0, so over any sequence
of recording operations on a fresh proxy `failure_count` equals the number of
failures recorded since the last successful probe (consecutive failures, not
a lifetime total), and `success_rate` equals
`success_count / (success_count + failures-since-last-success)`. -/
theorem C10_failure_count_consecutive (url : String) (es : List ProxyEvent)
    (now rt : ℚ) (p : ProxyInfo) :
    (check_proxy ⟨true, rt⟩ now p).failure_count = 0 ∧
    (run_proxy_events (ProxyInfo.init url) es).failure_count =
      failures_since_last_success es ∧
    (0 < (run_proxy_events (ProxyInfo.init url) es).success_count +
        failures_since_last_success es →
      (run_proxy_events (ProxyInfo.init url) es).success_rate =
        ((run_proxy_events (ProxyInfo.init url) es).success_count : ℚ) /
          (((run_proxy_events (ProxyInfo.init url) es).success_count : ℚ) +
            (failures_since_last_success es : ℚ))) := by
  have hfc := run_proxy_events_failure_count (ProxyInfo.init url) rfl es
  refine ⟨rfl, hfc, ?_⟩
  intro hpos
  rw [ProxyInfo.success_rate, hfc, if_pos (by omega)]

/-- Witness for `C10_failure_count_consecutive`: after one successful probe,
one `mark_proxy_failed` and one failed probe, the failure count is 2 and the
success rate is `1 / (1 + 2)`. -/
theorem C10_failure_count_consecutive_witness :
    (run_proxy_events (ProxyInfo.init "w") [ProxyEvent.probe_success 1 1,
        ProxyEvent.mark_failed, ProxyEvent.probe_failure 2 1]).success_rate =
      ((run_proxy_events (ProxyInfo.init "w") [ProxyEvent.probe_success 1 1,
          ProxyEvent.mark_failed, ProxyEvent.probe_failure 2 1]).success_count : ℚ) /
        (((run_proxy_events (ProxyInfo.init "w") [ProxyEvent.probe_success 1 1,
            ProxyEvent.mark_failed, ProxyEvent.probe_failure 2 1]).success_count : ℚ) +
          (failures_since_last_success [ProxyEvent.probe_success 1 1,
            ProxyEvent.mark_failed, ProxyEvent.probe_failure 2 1] : ℚ)) :=
  (C10_failure_count_consecutive "w" [ProxyEvent.probe_success 1 1,
    ProxyEvent.mark_failed, ProxyEvent.probe_failure 2 1] 0 0
    (ProxyInfo.init "w")).2.2 (by decide)
